import Mathlib

/-!
Shallow embedding of the hidden-stories repository (a browser storytelling
app).  The development models the two `useGeolocation` hook variants
(`echogo-app/src/hooks/useGeolocation.ts` and the retry-capped variant in
`hidden-stories-app/src/components/VoiceSelector.tsx`) as explicit state
machines over the hook state, and the API plumbing
(`fetchStories.ts`, `fetchMusic.ts` and the unnamed `fetchMusicForStory`
variant) as pure functions over response environments, instrumented with
the list of HTTP requests they issue.  JavaScript truthiness tests that
appear in the source (`x || y`, `if (x)`) are modelled explicitly.
-/

namespace HiddenStories

/-- A latitude/longitude pair as produced by the browser geolocation API.
Coordinate arithmetic never matters to the hooks, so coordinates are plain
integers. -/
structure GeoPos where
  lat : Int
  lng : Int
deriving DecidableEq

/-- The hook state `GeolocationState` shared by both `useGeolocation`
variants. -/
structure GeoState where
  position : Option GeoPos
  error : Option String
  isLocating : Bool
  lastRequestTime : Option Int
deriving DecidableEq

/-- The `useState` initialiser of both hooks. -/
def initialGeoState : GeoState :=
  { position := none, error := none, isLocating := false, lastRequestTime := none }

/-- Options passed to `navigator.geolocation.getCurrentPosition`;
`maximumAge = none` models `Infinity`. -/
structure PositionOptions where
  enableHighAccuracy : Bool
  timeout : Nat
  maximumAge : Option Nat
deriving DecidableEq

/-- A geolocation request issued by the hook, tagged by which of the three
`getCurrentPosition` call sites issued it. -/
inductive GeoRequest where
  | primary (o : PositionOptions)
  | cached (o : PositionOptions)
  | fallback (o : PositionOptions)
deriving DecidableEq

/-- The options of both variants of `tryFallbackGeolocation`:
`{ enableHighAccuracy: false, timeout: 30000, maximumAge: 120000 }`. -/
def fallbackOptions : PositionOptions :=
  { enableHighAccuracy := false, timeout := 30000, maximumAge := some 120000 }

/-- A `GeolocationPositionError`: a numeric code and a message string. -/
structure GeoError where
  code : Nat
  message : String
deriving DecidableEq

def PERMISSION_DENIED : Nat := 1
def POSITION_UNAVAILABLE : Nat := 2
def TIMEOUT : Nat := 3

/-- `pat` occurs as a contiguous sublist of `l`. -/
def charsInclude (pat : List Char) : List Char → Bool
  | [] => pat.isEmpty
  | c :: t => pat.isPrefixOf (c :: t) || charsInclude pat t

/-- JavaScript `s.includes(pat)` on strings. -/
def strIncludes (s pat : String) : Bool :=
  charsInclude pat.data s.data

/-- JavaScript `a || d` where `a` is a string-or-missing value: `null`,
`undefined` and `""` are falsy. -/
def jsOrString (a : Option String) (d : String) : String :=
  match a with
  | some s => if s = "" then d else s
  | none => d

/-- JavaScript `a || null` for a string-or-missing value. -/
def jsOrNullStr (a : Option String) : Option String :=
  match a with
  | some s => if s = "" then none else some s
  | none => none

/-- The throttling test of both hooks:
`state.lastRequestTime && now - state.lastRequestTime < 2000`.
A `lastRequestTime` of `0` is falsy in JavaScript, so it disables the
throttle. -/
def throttled (g : GeoState) (now : Int) : Bool :=
  match g.lastRequestTime with
  | some t => t != 0 && decide (now - t < 2000)
  | none => false

def msgNotSupported : String := "Geolocation is not supported by your browser"

def msgWatchdogTimeout : String :=
  "Location request timed out. Please try selecting a location on the map instead."

def msgFallbackFailed : String :=
  "Unable to determine your location. Please select a location on the map instead."

def msgPermissionDenied : String :=
  "Location permission denied. Please enable location services."

/-- Count of degraded-accuracy fallback requests in an issued-request list. -/
def countFallbackReqs (l : List GeoRequest) : Nat :=
  l.countP (fun r => match r with | GeoRequest.fallback _ => true | _ => false)

end HiddenStories

namespace HiddenStories.EchoGeo

open HiddenStories

/-- The option record accepted by the echogo `useGeolocation`; every
field may be omitted. -/
structure Options where
  enableHighAccuracy : Option Bool
  timeout : Option Nat
  maximumAge : Option Nat
  autoLocateOnMount : Option Bool

def emptyOptions : Options := ⟨none, none, none, none⟩

/-- The hook parameters after destructuring with defaults. -/
structure Config where
  enableHighAccuracy : Bool
  timeout : Nat
  maximumAge : Nat
  autoLocateOnMount : Bool
deriving DecidableEq

/-- The destructuring defaults of the echogo `useGeolocation`:
conservative settings when an Apple device was detected. -/
def resolveOptions (isAppleDevice : Bool) (o : Options) : Config :=
  { enableHighAccuracy := o.enableHighAccuracy.getD (if isAppleDevice then false else true)
    timeout := o.timeout.getD (if isAppleDevice then 20000 else 10000)
    maximumAge := o.maximumAge.getD (if isAppleDevice then 60000 else 0)
    autoLocateOnMount := o.autoLocateOnMount.getD true }

/-- Asynchronous callbacks that can run during one `getCurrentLocation`
invocation of the echogo hook. -/
inductive Event where
  | watchdog
  | mainSuccess (p : GeoPos)
  | mainError (e : GeoError)
  | fallbackSuccess (p : GeoPos)
  | fallbackError
deriving DecidableEq

def msgCoreLocation : String :=
  "Unable to determine your location. Please try selecting a location on the map instead."

def msgUnavailableLater : String :=
  "Location information is unavailable. Please try again later."

def msgTimeoutAgain : String := "Location request timed out. Please try again."

/-- The expanded CoreLocation test of the echogo error handler:
`error.message && (… includes … || error.code === 2)`. -/
def isCoreLocationError (e : GeoError) : Bool :=
  e.message != "" &&
    (strIncludes e.message "kCLErrorLocationUnknown" ||
     strIncludes e.message "CoreLocationProvider" ||
     strIncludes e.message "CoreLocation framework" ||
     strIncludes e.message "location" ||
     e.code == POSITION_UNAVAILABLE)

/-- The `errorMessage` computed by the echogo main error callback. -/
def mainErrorMessage (e : GeoError) : String :=
  if isCoreLocationError e then msgCoreLocation
  else if e.code == PERMISSION_DENIED then msgPermissionDenied
  else if e.code == POSITION_UNAVAILABLE then msgUnavailableLater
  else if e.code == TIMEOUT then msgTimeoutAgain
  else "Error getting location: " ++ (if e.message = "" then "Unknown error" else e.message)

/-- One callback step of the echogo hook.  `requestTime` is the `now`
captured at the start of the invocation.  The returned list holds the
geolocation requests the callback issues. -/
def step (cfg : Config) (requestTime : Int) (g : GeoState) :
    Event → GeoState × List GeoRequest
  | .watchdog =>
    if g.isLocating then
      if cfg.enableHighAccuracy then
        (g, [GeoRequest.fallback fallbackOptions])
      else
        ({ g with error := some msgWatchdogTimeout, isLocating := false }, [])
    else (g, [])
  | .mainSuccess p =>
    ({ position := some p, error := none, isLocating := false,
       lastRequestTime := g.lastRequestTime }, [])
  | .mainError e =>
    ({ position := none, error := some (mainErrorMessage e), isLocating := false,
       lastRequestTime := g.lastRequestTime },
     if isCoreLocationError e then [GeoRequest.fallback fallbackOptions] else [])
  | .fallbackSuccess p =>
    ({ position := some p, error := none, isLocating := false,
       lastRequestTime := some requestTime }, [])
  | .fallbackError =>
    ({ g with error := some msgFallbackFailed, isLocating := false }, [])

/-- The synchronous part of the echogo `getCurrentLocation`: throttling,
support check, optimistic state update and the primary request. -/
def getCurrentLocation (cfg : Config) (now : Int) (geolocationSupported : Bool)
    (g : GeoState) : GeoState × List GeoRequest :=
  if throttled g now then (g, [])
  else if !geolocationSupported then
    ({ g with error := some msgNotSupported, isLocating := false }, [])
  else
    ({ g with isLocating := true, error := none, lastRequestTime := some now },
     [GeoRequest.primary
        { enableHighAccuracy := cfg.enableHighAccuracy, timeout := cfg.timeout,
          maximumAge := some cfg.maximumAge }])

/-- Run a sequence of callback events, accumulating issued requests. -/
def run (cfg : Config) (requestTime : Int) (g : GeoState) :
    List Event → GeoState × List GeoRequest
  | [] => (g, [])
  | e :: es =>
    let sr := step cfg requestTime g e
    let rest := run cfg requestTime sr.1 es
    (rest.1, sr.2 ++ rest.2)

end HiddenStories.EchoGeo

namespace HiddenStories.StoriesGeo

open HiddenStories

/-- The option record accepted by the retry-capped `useGeolocation` in
`VoiceSelector.tsx`; every field may be omitted. -/
structure Options where
  enableHighAccuracy : Option Bool
  timeout : Option Nat
  maximumAge : Option Nat
  autoLocateOnMount : Option Bool
  maxRetries : Option Nat

def emptyOptions : Options := ⟨none, none, none, none, none⟩

/-- The hook parameters after destructuring with defaults. -/
structure Config where
  enableHighAccuracy : Bool
  timeout : Nat
  maximumAge : Nat
  autoLocateOnMount : Bool
  maxRetries : Nat
deriving DecidableEq

/-- The destructuring defaults of the retry-capped `useGeolocation`:
conservative settings when an Apple device was detected, and a retry cap
defaulting to 2. -/
def resolveOptions (isAppleDevice : Bool) (o : Options) : Config :=
  { enableHighAccuracy := o.enableHighAccuracy.getD (if isAppleDevice then false else true)
    timeout := o.timeout.getD (if isAppleDevice then 30000 else 10000)
    maximumAge := o.maximumAge.getD (if isAppleDevice then 120000 else 0)
    autoLocateOnMount := o.autoLocateOnMount.getD true
    maxRetries := o.maxRetries.getD 2 }

/-- Per-invocation machine state: the React state plus the `retryCount`
ref and bookkeeping for which callbacks may still fire.
`watchdogPending` is true while the `setTimeout` watchdog is armed and
uncleared, `mainPending` (resp. `cachedPending`) while the main
(resp. Apple cached-position) `getCurrentPosition` callbacks have not run,
and `fallbackPending` counts outstanding fallback requests. -/
structure MachineState where
  geo : GeoState
  retryCount : Nat
  watchdogPending : Bool
  mainPending : Bool
  cachedPending : Bool
  fallbackPending : Nat
deriving DecidableEq

/-- Asynchronous callbacks that can run during one `getCurrentLocation`
invocation of the retry-capped hook. -/
inductive Event where
  | watchdog
  | mainSuccess (p : GeoPos)
  | mainError (e : GeoError)
  | cachedSuccess (p : GeoPos)
  | cachedError
  | fallbackSuccess (p : GeoPos)
  | fallbackError
deriving DecidableEq

/-- Which events can actually fire in a given machine state. -/
def valid (s : MachineState) : Event → Bool
  | .watchdog => s.watchdogPending
  | .mainSuccess _ => s.mainPending
  | .mainError _ => s.mainPending
  | .cachedSuccess _ => s.cachedPending
  | .cachedError => s.cachedPending
  | .fallbackSuccess _ => decide (0 < s.fallbackPending)
  | .fallbackError => decide (0 < s.fallbackPending)

def msgMaxRetries : String :=
  "Unable to determine your location after multiple attempts. Please select a location on the map instead."

def msgPreciseUnknown : String :=
  "Unable to determine your precise location. Please try selecting a location on the map instead."

def msgUnavailableMap : String :=
  "Location information is unavailable. Please try selecting a location on the map."

def msgTimeoutRetryMap : String :=
  "Location request timed out. Please try again or select a location on the map."

/-- `tryFallbackGeolocation`: increments the retry counter, gives up with
an error once the counter exceeds `maxRetries`, and otherwise issues the
degraded-accuracy request. -/
def tryFallbackGeolocation (maxRetries : Nat) (s : MachineState) :
    MachineState × List GeoRequest :=
  let retry := s.retryCount + 1
  if maxRetries < retry then
    ({ s with retryCount := retry,
              geo := { s.geo with error := some msgMaxRetries, isLocating := false } }, [])
  else
    ({ s with retryCount := retry, fallbackPending := s.fallbackPending + 1 },
     [GeoRequest.fallback fallbackOptions])

/-- The narrower CoreLocation test of the retry-capped error handler:
`error.message && (… kCLErrorLocationUnknown … || … CoreLocationProvider …)`. -/
def isCoreLocationUnknownError (e : GeoError) : Bool :=
  e.message != "" &&
    (strIncludes e.message "kCLErrorLocationUnknown" ||
     strIncludes e.message "CoreLocationProvider")

/-- The `(errorMessage, shouldTryFallback)` pair computed by the main
error callback; `retryOk` is the value of `retryCount.current < maxRetries`. -/
def mainErrorChoice (retryOk : Bool) (e : GeoError) : String × Bool :=
  if isCoreLocationUnknownError e then (msgPreciseUnknown, retryOk)
  else if e.code == POSITION_UNAVAILABLE then (msgUnavailableMap, retryOk)
  else if e.code == PERMISSION_DENIED then (msgPermissionDenied, false)
  else if e.code == TIMEOUT then (msgTimeoutRetryMap, retryOk)
  else ("Error getting location: " ++ (if e.message = "" then "Unknown error" else e.message),
        retryOk)

/-- One callback step of the retry-capped hook.  `requestTime` is the
`now` captured at the start of the invocation. -/
def step (cfg : Config) (requestTime : Int) (s : MachineState) :
    Event → MachineState × List GeoRequest
  | .watchdog =>
    let s := { s with watchdogPending := false }
    if s.geo.isLocating then
      if cfg.enableHighAccuracy && decide (s.retryCount < cfg.maxRetries) then
        tryFallbackGeolocation cfg.maxRetries s
      else
        ({ s with geo := { s.geo with error := some msgWatchdogTimeout, isLocating := false } },
         [])
    else (s, [])
  | .mainSuccess p =>
    ({ s with watchdogPending := false, mainPending := false, retryCount := 0,
              geo := { position := some p, error := none, isLocating := false,
                       lastRequestTime := s.geo.lastRequestTime } }, [])
  | .mainError e =>
    let s := { s with watchdogPending := false, mainPending := false }
    let choice := mainErrorChoice (decide (s.retryCount < cfg.maxRetries)) e
    if choice.2 then
      tryFallbackGeolocation cfg.maxRetries s
    else
      ({ s with geo := { position := none, error := some choice.1, isLocating := false,
                         lastRequestTime := s.geo.lastRequestTime } }, [])
  | .cachedSuccess p =>
    ({ s with watchdogPending := false, cachedPending := false,
              geo := { position := some p, error := none, isLocating := false,
                       lastRequestTime := s.geo.lastRequestTime } }, [])
  | .cachedError =>
    ({ s with cachedPending := false }, [])
  | .fallbackSuccess p =>
    ({ s with fallbackPending := s.fallbackPending - 1, retryCount := 0,
              geo := { position := some p, error := none, isLocating := false,
                       lastRequestTime := some requestTime } }, [])
  | .fallbackError =>
    ({ s with fallbackPending := s.fallbackPending - 1,
              geo := { s.geo with error := some msgFallbackFailed, isLocating := false } }, [])

/-- The machine state right after the synchronous part of
`getCurrentLocation` ran on a non-throttled, supported call. -/
def initialMachineState (isAppleDevice : Bool) (now : Int) (g : GeoState) : MachineState :=
  { geo := { g with isLocating := true, error := none, lastRequestTime := some now },
    retryCount := 0, watchdogPending := true, mainPending := true,
    cachedPending := isAppleDevice, fallbackPending := 0 }

/-- The geolocation requests issued synchronously by `getCurrentLocation`:
on Apple devices a cached-position attempt
(`maximumAge: Infinity, timeout: 1000, enableHighAccuracy: false`), then
the main request with the hook parameters. -/
def startRequests (cfg : Config) (isAppleDevice : Bool) : List GeoRequest :=
  (if isAppleDevice then
    [GeoRequest.cached { enableHighAccuracy := false, timeout := 1000, maximumAge := none }]
   else []) ++
  [GeoRequest.primary
     { enableHighAccuracy := cfg.enableHighAccuracy, timeout := cfg.timeout,
       maximumAge := some cfg.maximumAge }]

/-- The synchronous part of the retry-capped `getCurrentLocation`. -/
def getCurrentLocation (cfg : Config) (isAppleDevice : Bool) (now : Int)
    (geolocationSupported : Bool) (g : GeoState) : GeoState × List GeoRequest :=
  if throttled g now then (g, [])
  else if !geolocationSupported then
    ({ g with error := some msgNotSupported, isLocating := false }, [])
  else
    ((initialMachineState isAppleDevice now g).geo, startRequests cfg isAppleDevice)

/-- Run a sequence of callback events, accumulating issued requests. -/
def run (cfg : Config) (requestTime : Int) (s : MachineState) :
    List Event → MachineState × List GeoRequest
  | [] => (s, [])
  | e :: es =>
    let sr := step cfg requestTime s e
    let rest := run cfg requestTime sr.1 es
    (rest.1, sr.2 ++ rest.2)

/-- All events of a sequence are possible, step by step. -/
def validRun (cfg : Config) (requestTime : Int) (s : MachineState) : List Event → Bool
  | [] => true
  | e :: es => valid s e && validRun cfg requestTime (step cfg requestTime s e).1 es

end HiddenStories.StoriesGeo

namespace HiddenStories

/-- An HTTP request issued by the API plumbing: an OpenAI chat completion
(model, system message, user message), a YouTube video search
(`part=snippet`, `type=video`, `videoCategoryId=10` are fixed in both
variants; the query, `maxResults` and `videoEmbeddable` vary), or a
Nominatim reverse-geocoding lookup. -/
inductive ApiReq where
  | chat (model : String) (systemMsg : String) (userMsg : String)
  | ytSearch (q : String) (maxResults : Nat) (videoEmbeddable : Bool)
  | nominatimReverse (lat lng : Int)
deriving DecidableEq

/-- A chat-completion response delivers the contents of `choices`
(`choices[i].message.content`); `Except.error` is a network or API error
thrown by axios. -/
abbrev ChatOutcome := Except Unit (List String)

/-- Extracting `choices[0].message.content` throws on an empty `choices`
array; the surrounding `try` turns that into the catch path. -/
def chatContent : ChatOutcome → Option String
  | .error _ => none
  | .ok choices => choices.head?

end HiddenStories

namespace HiddenStories.StoriesApi

open HiddenStories

/-- Default address used by the hidden-stories-app `fetchLocalStory`. -/
def DEFAULT_ADDRESS : String := "Stenhuggervej 4, Copenhagen, Denmark"

def fallbackStory : String := "No interesting facts found at this location."

def storySystemMsg : String :=
  "You are an expert storyteller with internet access who provides up-to-date historical, cultural, and current stories about specific locations in a fun and engaging way. Use your knowledge of recent events, local businesses, and points of interest to provide the most current and accurate information possible. When appropriate, mention specific sources where more information could be found (like local news sites, Wikipedia, or official websites)."

def storyUserMsg (locationName : String) : String :=
  "Tell me an interesting, little-known, or funny historical fact about this specific address: \"" ++ locationName ++ "\". Focus on very local landmarks, buildings, events, or stories that happened at this exact spot or within a 100m radius. Use your internet access to find the most up-to-date and accurate information about this specific location. Include recent events or changes if relevant. Make it engaging and not too long (max 3 sentences)."

/-- The external responses one invocation of `fetchLocalStory` can see. -/
structure StoryEnv where
  chatChoices : ChatOutcome

/-- `hidden-stories-app/src/api/fetchStories.ts` `fetchLocalStory`,
instrumented with the list of issued requests.  Any failure is caught and
turned into the fixed fallback string. -/
def fetchLocalStory (env : StoryEnv) (lat lng : Int) (address : Option String) :
    String × List ApiReq :=
  let locationName := jsOrString address DEFAULT_ADDRESS
  let req := ApiReq.chat "gpt-4o" storySystemMsg (storyUserMsg locationName)
  match chatContent env.chatChoices with
  | none => (fallbackStory, [req])
  | some content => (content, [req])

end HiddenStories.StoriesApi

namespace HiddenStories.EchoStoriesApi

open HiddenStories

/-- The `address` object of a Nominatim reverse-geocoding response. -/
structure NominatimAddress where
  city : Option String
  town : Option String
  village : Option String
deriving DecidableEq

/-- `address.city || address.town || address.village || "this location"`. -/
def cityOf (a : NominatimAddress) : String :=
  jsOrString a.city (jsOrString a.town (jsOrString a.village "this location"))

def storyUserMsg (locationName : String) : String :=
  "Tell me an interesting, little-known, or funny historical fact about this specific address: \"" ++ locationName ++ "\". Focus on very local landmarks, buildings, events, or stories that happened at this exact spot or within a 200m radius. Use your internet access to find the most up-to-date and accurate information about this specific location. Include recent events or changes if relevant. Make it engaging and not too long (max 3 sentences)."

/-- The external responses one invocation of the echogo `fetchLocalStory`
can see. -/
structure StoryEnv where
  reverseGeocode : Except Unit NominatimAddress
  chatChoices : ChatOutcome

/-- `echogo-app/src/api/fetchStories.ts` `fetchLocalStory`: when no
truthy address is passed it first reverse-geocodes via Nominatim; any
failure is caught and turned into the fixed fallback string. -/
def fetchLocalStory (env : StoryEnv) (lat lng : Int) (address : Option String) :
    String × List ApiReq :=
  let addrVal := jsOrString address ""
  if addrVal = "" then
    match env.reverseGeocode with
    | .error _ => (StoriesApi.fallbackStory, [ApiReq.nominatimReverse lat lng])
    | .ok a =>
      let locationName := cityOf a
      let req := ApiReq.chat "gpt-4o" StoriesApi.storySystemMsg (storyUserMsg locationName)
      match chatContent env.chatChoices with
      | none => (StoriesApi.fallbackStory, [ApiReq.nominatimReverse lat lng, req])
      | some content => (content, [ApiReq.nominatimReverse lat lng, req])
  else
    let req := ApiReq.chat "gpt-4o" StoriesApi.storySystemMsg (storyUserMsg addrVal)
    match chatContent env.chatChoices with
    | none => (StoriesApi.fallbackStory, [req])
    | some content => (content, [req])

end HiddenStories.EchoStoriesApi

namespace HiddenStories.MusicApi

open HiddenStories

/-- A YouTube search result item as used by `fetchMusic.ts`
(`items[i].id.videoId`). -/
structure YTItem where
  videoId : String
deriving DecidableEq

/-- The external responses one invocation of `fetchMusicForStory` can see. -/
structure MusicEnv where
  themeChoices : ChatOutcome
  queryChoices : ChatOutcome
  ytItems : Except Unit (List YTItem)

/-- The object returned by `fetchMusic.ts` `fetchMusicForStory`. -/
structure MusicResult where
  theme : String
  searchQuery : Option String
  videoId : Option String
  videoUrl : Option String
deriving DecidableEq

/-- The catch-path result of `fetchMusic.ts`. -/
def errorResult : MusicResult :=
  { theme := "Unknown", searchQuery := none, videoId := none, videoUrl := none }

def themeSystemMsg : String :=
  "You are a music curator that suggests music genres based on storytelling themes."

def themeUserMsg (story : String) : String :=
  "Based on the following historical fact, what is the best music genre to represent it? \n                      Example answer: \"Jazz\", \"Ambient\", \"Rock\", \"Classical\". Fact: " ++ story

def querySystemMsg : String :=
  "You are a music expert who can recommend specific music based on themes and moods."

def queryUserMsg (musicTheme story : String) : String :=
  "Recommend a specific search query for YouTube to find a good " ++ musicTheme ++ " music track that would match this story: \"" ++ story ++ "\". \n                      Just provide the search query, nothing else. Make it specific enough to find good results but not too long."

/-- `items[0]?.id.videoId || null`: the first item identifier, with the
empty string collapsed to `null` by the `||`. -/
def ytVideoId (items : List YTItem) : Option String :=
  match items.head? with
  | none => none
  | some it => if it.videoId = "" then none else some it.videoId

/-- `videoId ? \x7bwatch URL\x7d : null`. -/
def jsVideoUrl (videoId : Option String) : Option String :=
  match videoId with
  | some v => if v = "" then none else some ("https://www.youtube.com/watch?v=" ++ v)
  | none => none

/-- `hidden-stories-app/src/api/fetchMusic.ts` `fetchMusicForStory`,
instrumented with the list of issued requests: theme chat call, search
query chat call, then one YouTube search with `q = searchQuery + " music"`
and `maxResults = 1`. -/
def fetchMusicForStory (env : MusicEnv) (story : String) : MusicResult × List ApiReq :=
  let req1 := ApiReq.chat "gpt-4" themeSystemMsg (themeUserMsg story)
  match chatContent env.themeChoices with
  | none => (errorResult, [req1])
  | some c1 =>
    let musicTheme := c1.trim
    let req2 := ApiReq.chat "gpt-4" querySystemMsg (queryUserMsg musicTheme story)
    match chatContent env.queryChoices with
    | none => (errorResult, [req1, req2])
    | some c2 =>
      let searchQuery := c2.trim
      let req3 := ApiReq.ytSearch (searchQuery ++ " music") 1 false
      match env.ytItems with
      | .error _ => (errorResult, [req1, req2, req3])
      | .ok items =>
        let videoId := ytVideoId items
        ({ theme := musicTheme, searchQuery := some searchQuery,
           videoId := videoId, videoUrl := jsVideoUrl videoId },
         [req1, req2, req3])

end HiddenStories.MusicApi

namespace HiddenStories.MusicApi6

open HiddenStories

/-- A YouTube search result item as used by the unnamed
`fetchMusicForStory` variant (`items[i]?.id?.videoId`,
`items[i]?.snippet?.title`). -/
structure YTItem where
  videoId : Option String
  title : Option String
deriving DecidableEq

/-- The external responses one invocation can see. -/
structure MusicEnv where
  queryChoices : ChatOutcome
  ytItems : Except Unit (List YTItem)

/-- The object returned by the unnamed `fetchMusicForStory` variant
(`videoTitle` is absent on the catch path, modelled as `none`). -/
structure MusicResult where
  searchQuery : Option String
  videoId : Option String
  videoUrl : Option String
  videoTitle : Option String
deriving DecidableEq

def errorResult : MusicResult :=
  { searchQuery := none, videoId := none, videoUrl := none, videoTitle := none }

def querySystemMsg : String :=
  "You create precise YouTube search queries for finding music that fits historical stories."

def queryUserMsg (story : String) : String :=
  "Create a YouTube search query for music related to this historical story: \"" ++ story ++ "\".\n                      \n                      - Consider time period, cultural background, and emotional tone.\n                      - If relevant, include keywords such as \"folk music\", \"traditional\", \"historical music\", or specific genres.\n                      - Keep the query under 10 words.\n                      - Return ONLY the search query, no explanations, no quotation marks."

/-- The unnamed `fetchMusicForStory` variant: one chat call generating the
search query directly, then one YouTube search with `maxResults = 5` and
`videoEmbeddable = true`, picking the first item. -/
def fetchMusicForStory (env : MusicEnv) (story : String) : MusicResult × List ApiReq :=
  let req1 := ApiReq.chat "gpt-4" querySystemMsg (queryUserMsg story)
  match chatContent env.queryChoices with
  | none => (errorResult, [req1])
  | some c1 =>
    let searchQuery := c1.trim
    let req2 := ApiReq.ytSearch searchQuery 5 true
    match env.ytItems with
    | .error _ => (errorResult, [req1, req2])
    | .ok items =>
      match items.head? with
      | none =>
        ({ searchQuery := some searchQuery, videoId := none, videoUrl := none,
           videoTitle := none }, [req1, req2])
      | some it =>
        let videoId := jsOrNullStr it.videoId
        ({ searchQuery := some searchQuery, videoId := videoId,
           videoUrl := MusicApi.jsVideoUrl videoId,
           videoTitle := jsOrNullStr it.title }, [req1, req2])

end HiddenStories.MusicApi6

namespace HiddenStories

/-- The `handleGenerateStory` flow of `App.tsx`: fetch the story for the
selected location, then fetch music for that story. -/
def storyMusicPipeline (se : StoriesApi.StoryEnv) (me : MusicApi.MusicEnv)
    (lat lng : Int) (address : Option String) :
    String × MusicApi.MusicResult × List ApiReq :=
  let s := StoriesApi.fetchLocalStory se lat lng address
  let m := MusicApi.fetchMusicForStory me s.1
  (s.1, m.1, s.2 ++ m.2)

/-- The invariant of claim C10: whenever an error is displayed, the
locating flag is off. -/
abbrev ErrorClearsLocating (g : GeoState) : Prop :=
  g.error ≠ none → g.isLocating = false

/-- Recogniser for YouTube search requests. -/
def isYtReq : ApiReq → Bool
  | .ytSearch _ _ _ => true
  | _ => false

/-- Recogniser for chat-completion requests. -/
def isChatReq : ApiReq → Bool
  | .chat _ _ _ => true
  | _ => false

/-- Non-Apple default configuration of the echogo hook. -/
def defaultCfgE : EchoGeo.Config := EchoGeo.resolveOptions false EchoGeo.emptyOptions

/-- Non-Apple default configuration of the retry-capped hook. -/
def defaultCfgS : StoriesGeo.Config := StoriesGeo.resolveOptions false StoriesGeo.emptyOptions

end HiddenStories

namespace HiddenStories.StoriesGeo

/-- While the watchdog is armed and uncleared, no fallback was ever
issued and the retry counter is zero. -/
def WatchdogArmedInv (s : MachineState) : Prop :=
  s.watchdogPending = true → s.retryCount = 0 ∧ s.fallbackPending = 0

/-- Number of trigger sites (watchdog, main error callback) still able to
fire; each can issue at most one fallback request. -/
def triggerBudget (s : MachineState) : Nat :=
  (if s.watchdogPending then 1 else 0) + (if s.mainPending then 1 else 0)

end HiddenStories.StoriesGeo

namespace HiddenStories

/-- Configuration of the C2 counterexample run: high accuracy with
`maxRetries := 1`. -/
def cex2Cfg : StoriesGeo.Config :=
  { enableHighAccuracy := true, timeout := 10000, maximumAge := 0,
    autoLocateOnMount := true, maxRetries := 1 }

/-- Start state of the C2 counterexample run. -/
def cex2Start : StoriesGeo.MachineState :=
  StoriesGeo.initialMachineState false 0 initialGeoState

/-- Events of the C2 counterexample run: the watchdog fires and launches a
fallback, the fallback succeeds (resetting the retry counter), then the
delayed main request reports a timeout error and launches a second
fallback. -/
def cex2Events : List StoriesGeo.Event :=
  [StoriesGeo.Event.watchdog,
   StoriesGeo.Event.fallbackSuccess ⟨1, 2⟩,
   StoriesGeo.Event.mainError ⟨3, "x"⟩]

/-- Geolocation state with a recorded request time of 0, for the C3
counterexample. -/
def cex3State : GeoState :=
  { position := none, error := none, isLocating := false, lastRequestTime := some 0 }

/-- Environment of the C7 counterexample: the video search succeeds and
returns one item whose identifier is the empty string. -/
def cex7Env : MusicApi.MusicEnv :=
  { themeChoices := Except.ok ["Jazz"], queryChoices := Except.ok ["q"],
    ytItems := Except.ok [{ videoId := "" }] }

/-- Apple-device default configuration of the echogo hook. -/
def appleCfgE : EchoGeo.Config := EchoGeo.resolveOptions true EchoGeo.emptyOptions

/-- Apple-device default configuration of the retry-capped hook. -/
def appleCfgS : StoriesGeo.Config := StoriesGeo.resolveOptions true StoriesGeo.emptyOptions

end HiddenStories

open HiddenStories

/-- C4: with no explicit options, the geolocation defaults depend on the
Apple-device detection: on an Apple device high accuracy is disabled, the
timeout is 20000 ms (echogo variant) resp. 30000 ms (retry-capped
variant) instead of 10000 ms, and maximumAge is the non-zero 60000 ms
resp. 120000 ms instead of 0. -/
theorem C4_apple_device_defaults :
    (EchoGeo.resolveOptions true EchoGeo.emptyOptions).enableHighAccuracy = false ∧
    (EchoGeo.resolveOptions true EchoGeo.emptyOptions).timeout = 20000 ∧
    (EchoGeo.resolveOptions true EchoGeo.emptyOptions).maximumAge = 60000 ∧
    (EchoGeo.resolveOptions true EchoGeo.emptyOptions).maximumAge ≠ 0 ∧
    (EchoGeo.resolveOptions false EchoGeo.emptyOptions).enableHighAccuracy = true ∧
    (EchoGeo.resolveOptions false EchoGeo.emptyOptions).timeout = 10000 ∧
    (EchoGeo.resolveOptions false EchoGeo.emptyOptions).maximumAge = 0 ∧
    (EchoGeo.resolveOptions false EchoGeo.emptyOptions).timeout <
      (EchoGeo.resolveOptions true EchoGeo.emptyOptions).timeout ∧
    (StoriesGeo.resolveOptions true StoriesGeo.emptyOptions).enableHighAccuracy = false ∧
    (StoriesGeo.resolveOptions true StoriesGeo.emptyOptions).timeout = 30000 ∧
    (StoriesGeo.resolveOptions true StoriesGeo.emptyOptions).maximumAge = 120000 ∧
    (StoriesGeo.resolveOptions true StoriesGeo.emptyOptions).maximumAge ≠ 0 ∧
    (StoriesGeo.resolveOptions false StoriesGeo.emptyOptions).enableHighAccuracy = true ∧
    (StoriesGeo.resolveOptions false StoriesGeo.emptyOptions).timeout = 10000 ∧
    (StoriesGeo.resolveOptions false StoriesGeo.emptyOptions).maximumAge = 0 ∧
    (StoriesGeo.resolveOptions false StoriesGeo.emptyOptions).timeout <
      (StoriesGeo.resolveOptions true StoriesGeo.emptyOptions).timeout := by
  decide

/-- C3 (amended): a call made less than 2000 ms after a recorded
**non-zero** `lastRequestTime` is throttled: no request is issued and the
state is unchanged, in both hook variants.  (The code tests
`state.lastRequestTime` for JavaScript truthiness, so a recorded
timestamp of exactly 0 disables the throttle; see the counterexample.) -/
theorem C3_throttle_amended :
    ∀ (now t : Int) (g : GeoState), g.lastRequestTime = some t → t ≠ 0 →
      now - t < 2000 →
      (∀ (cfgE : EchoGeo.Config) (sup : Bool),
        EchoGeo.getCurrentLocation cfgE now sup g = (g, [])) ∧
      (∀ (cfgS : StoriesGeo.Config) (apple sup : Bool),
        StoriesGeo.getCurrentLocation cfgS apple now sup g = (g, [])) := by
  intro now t g hg ht hlt
  have hth : throttled g now = true := by
    simp [throttled, hg, ht, hlt]
  constructor
  · intro cfgE sup
    simp [EchoGeo.getCurrentLocation, hth]
  · intro cfgS apple sup
    simp [StoriesGeo.getCurrentLocation, hth]

/-- C3 witness: a call 1500 ms after a recorded time of 500 is throttled
in both variants. -/
theorem C3_throttle_amended_witness :
    EchoGeo.getCurrentLocation defaultCfgE 2000 true
      { position := none, error := none, isLocating := false, lastRequestTime := some 500 } =
      ({ position := none, error := none, isLocating := false, lastRequestTime := some 500 }, []) ∧
    StoriesGeo.getCurrentLocation defaultCfgS false 2000 true
      { position := none, error := none, isLocating := false, lastRequestTime := some 500 } =
      ({ position := none, error := none, isLocating := false, lastRequestTime := some 500 }, []) :=
  ⟨(C3_throttle_amended 2000 500 _ rfl (by decide) (by decide)).1 defaultCfgE true,
   (C3_throttle_amended 2000 500 _ rfl (by decide) (by decide)).2 defaultCfgS false true⟩

/-- C3 counterexample: with a recorded `lastRequestTime` of 0, a call
1000 ms later (less than 2000 ms) is **not** throttled in either
variant: both issue requests and flip `isLocating` on. -/
theorem C3_counterexample :
    ((1000 : Int) - 0 < 2000) ∧ cex3State.lastRequestTime = some 0 ∧
    (EchoGeo.getCurrentLocation defaultCfgE 1000 true cex3State).1.isLocating = true ∧
    (EchoGeo.getCurrentLocation defaultCfgE 1000 true cex3State).2 ≠ [] ∧
    (StoriesGeo.getCurrentLocation defaultCfgS false 1000 true cex3State).1.isLocating = true ∧
    (StoriesGeo.getCurrentLocation defaultCfgS false 1000 true cex3State).2 ≠ [] := by
  decide

theorem echoStep_errorClears (cfg : EchoGeo.Config) (rt : Int) (g : GeoState)
    (e : EchoGeo.Event) (h : ErrorClearsLocating g) :
    ErrorClearsLocating (EchoGeo.step cfg rt g e).1 := by
  cases e <;> simp only [EchoGeo.step] <;> (try split_ifs) <;>
    simp_all [ErrorClearsLocating]

theorem echoRun_errorClears (cfg : EchoGeo.Config) (rt : Int) :
    ∀ (evs : List EchoGeo.Event) (g : GeoState), ErrorClearsLocating g →
      ErrorClearsLocating (EchoGeo.run cfg rt g evs).1 := by
  intro evs
  induction evs with
  | nil => intro g h; exact h
  | cons e es ih =>
    intro g h
    exact ih _ (echoStep_errorClears cfg rt g e h)

theorem storiesStep_errorClears (cfg : StoriesGeo.Config) (rt : Int)
    (s : StoriesGeo.MachineState) (e : StoriesGeo.Event)
    (h : ErrorClearsLocating s.geo) :
    ErrorClearsLocating (StoriesGeo.step cfg rt s e).1.geo := by
  cases e <;>
    simp only [StoriesGeo.step, StoriesGeo.tryFallbackGeolocation] <;> (try split_ifs) <;>
    simp_all [ErrorClearsLocating]

theorem storiesRun_errorClears (cfg : StoriesGeo.Config) (rt : Int) :
    ∀ (evs : List StoriesGeo.Event) (s : StoriesGeo.MachineState),
      ErrorClearsLocating s.geo →
      ErrorClearsLocating (StoriesGeo.run cfg rt s evs).1.geo := by
  intro evs
  induction evs with
  | nil => intro s h; exact h
  | cons e es ih =>
    intro s h
    exact ih _ (storiesStep_errorClears cfg rt s e h)

/-- C10: every transition of both hook variants preserves the invariant
that a non-null error implies `isLocating = false`: the start of
`getCurrentLocation`, every asynchronous callback, and hence every run of
callbacks, starting from the initial hook state which satisfies it. -/
theorem C10_error_implies_not_locating :
    ErrorClearsLocating initialGeoState ∧
    (∀ (cfg : EchoGeo.Config) (now : Int) (sup : Bool) (g : GeoState),
      ErrorClearsLocating g →
      ErrorClearsLocating (EchoGeo.getCurrentLocation cfg now sup g).1) ∧
    (∀ (cfg : EchoGeo.Config) (rt : Int) (g : GeoState) (e : EchoGeo.Event),
      ErrorClearsLocating g → ErrorClearsLocating (EchoGeo.step cfg rt g e).1) ∧
    (∀ (cfg : EchoGeo.Config) (rt : Int) (g : GeoState) (evs : List EchoGeo.Event),
      ErrorClearsLocating g → ErrorClearsLocating (EchoGeo.run cfg rt g evs).1) ∧
    (∀ (cfg : StoriesGeo.Config) (apple : Bool) (now : Int) (sup : Bool) (g : GeoState),
      ErrorClearsLocating g →
      ErrorClearsLocating (StoriesGeo.getCurrentLocation cfg apple now sup g).1) ∧
    (∀ (cfg : StoriesGeo.Config) (rt : Int) (s : StoriesGeo.MachineState)
        (e : StoriesGeo.Event),
      ErrorClearsLocating s.geo →
      ErrorClearsLocating (StoriesGeo.step cfg rt s e).1.geo) ∧
    (∀ (cfg : StoriesGeo.Config) (rt : Int) (s : StoriesGeo.MachineState)
        (evs : List StoriesGeo.Event),
      ErrorClearsLocating s.geo →
      ErrorClearsLocating (StoriesGeo.run cfg rt s evs).1.geo) := by
  refine ⟨by simp [ErrorClearsLocating, initialGeoState], ?_, ?_, ?_, ?_, ?_, ?_⟩
  · intro cfg now sup g h
    simp only [EchoGeo.getCurrentLocation] ; split_ifs <;>
      simp_all [ErrorClearsLocating]
  · exact fun cfg rt g e h => echoStep_errorClears cfg rt g e h
  · exact fun cfg rt g evs h => echoRun_errorClears cfg rt evs g h
  · intro cfg apple now sup g h
    simp only [StoriesGeo.getCurrentLocation, StoriesGeo.initialMachineState] ; split_ifs <;>
      simp_all [ErrorClearsLocating]
  · exact fun cfg rt s e h => storiesStep_errorClears cfg rt s e h
  · exact fun cfg rt s evs h => storiesRun_errorClears cfg rt evs s h

/-- C10 witness: the invariant holds after a concrete run in which the
watchdog fires and the fallback then fails. -/
theorem C10_error_implies_not_locating_witness :
    ErrorClearsLocating
      (StoriesGeo.run defaultCfgS 0 (StoriesGeo.initialMachineState false 0 initialGeoState)
        [StoriesGeo.Event.watchdog, StoriesGeo.Event.fallbackError]).1.geo ∧
    ErrorClearsLocating
      (EchoGeo.run defaultCfgE 0
        { position := none, error := none, isLocating := true, lastRequestTime := some 0 }
        [EchoGeo.Event.watchdog, EchoGeo.Event.fallbackError]).1 :=
  ⟨C10_error_implies_not_locating.2.2.2.2.2.2 defaultCfgS 0
      (StoriesGeo.initialMachineState false 0 initialGeoState)
      [StoriesGeo.Event.watchdog, StoriesGeo.Event.fallbackError] (by decide),
   C10_error_implies_not_locating.2.2.2.1 defaultCfgE 0
      { position := none, error := none, isLocating := true, lastRequestTime := some 0 }
      [EchoGeo.Event.watchdog, EchoGeo.Event.fallbackError] (by decide)⟩

theorem watchdogArmedInv_step (cfg : StoriesGeo.Config) (rt : Int)
    (s : StoriesGeo.MachineState) (e : StoriesGeo.Event)
    (hv : StoriesGeo.valid s e = true) (h : StoriesGeo.WatchdogArmedInv s) :
    StoriesGeo.WatchdogArmedInv (StoriesGeo.step cfg rt s e).1 := by
  cases e <;>
    simp only [StoriesGeo.step, StoriesGeo.tryFallbackGeolocation, StoriesGeo.valid] at * <;>
    (try split_ifs) <;> simp_all [StoriesGeo.WatchdogArmedInv] <;> omega

theorem watchdogArmedInv_run (cfg : StoriesGeo.Config) (rt : Int) :
    ∀ (evs : List StoriesGeo.Event) (s : StoriesGeo.MachineState),
      StoriesGeo.validRun cfg rt s evs = true → StoriesGeo.WatchdogArmedInv s →
      StoriesGeo.WatchdogArmedInv (StoriesGeo.run cfg rt s evs).1 := by
  intro evs
  induction evs with
  | nil => intro s _ h; exact h
  | cons e es ih =>
    intro s hv h
    simp only [StoriesGeo.validRun, Bool.and_eq_true] at hv
    exact ih _ hv.2 (watchdogArmedInv_step cfg rt s e hv.1 h)

/-- C1: when the watchdog fires while the invocation is still locating,
a hook whose primary request used high accuracy issues the
degraded-accuracy fallback request with `enableHighAccuracy = false`,
`timeout = 30000` and `maximumAge = 120000`, while a low-accuracy hook
instead records the timeout error message and ends the locating state.
This holds in the echogo variant unconditionally; in the retry-capped
variant it holds because at watchdog time the retry counter is still 0
(last conjunct) and every configuration in the repository has
`maxRetries = 2 ≥ 1`. -/
theorem C1_watchdog_fallback :
    (fallbackOptions.enableHighAccuracy = false ∧ fallbackOptions.timeout = 30000 ∧
      fallbackOptions.maximumAge = some 120000) ∧
    (∀ (cfg : EchoGeo.Config) (rt : Int) (g : GeoState), g.isLocating = true →
      (cfg.enableHighAccuracy = true →
        EchoGeo.step cfg rt g EchoGeo.Event.watchdog =
          (g, [GeoRequest.fallback fallbackOptions])) ∧
      (cfg.enableHighAccuracy = false →
        EchoGeo.step cfg rt g EchoGeo.Event.watchdog =
          ({ g with error := some msgWatchdogTimeout, isLocating := false }, []))) ∧
    (∀ (cfg : StoriesGeo.Config) (rt : Int) (s : StoriesGeo.MachineState),
      s.geo.isLocating = true →
      (cfg.enableHighAccuracy = true → s.retryCount = 0 → 1 ≤ cfg.maxRetries →
        (StoriesGeo.step cfg rt s StoriesGeo.Event.watchdog).2 =
          [GeoRequest.fallback fallbackOptions]) ∧
      (cfg.enableHighAccuracy = false →
        (StoriesGeo.step cfg rt s StoriesGeo.Event.watchdog).1.geo.error =
          some msgWatchdogTimeout ∧
        (StoriesGeo.step cfg rt s StoriesGeo.Event.watchdog).1.geo.isLocating = false ∧
        (StoriesGeo.step cfg rt s StoriesGeo.Event.watchdog).2 = [])) ∧
    (∀ (cfg : StoriesGeo.Config) (apple : Bool) (rt now : Int) (g : GeoState)
        (evs : List StoriesGeo.Event),
      StoriesGeo.validRun cfg rt (StoriesGeo.initialMachineState apple now g) evs = true →
      (StoriesGeo.run cfg rt (StoriesGeo.initialMachineState apple now g)
        evs).1.watchdogPending = true →
      (StoriesGeo.run cfg rt (StoriesGeo.initialMachineState apple now g)
        evs).1.retryCount = 0) := by
  refine ⟨⟨rfl, rfl, rfl⟩, ?_, ?_, ?_⟩
  · intro cfg rt g hl
    constructor
    · intro hHA
      simp [EchoGeo.step, hl, hHA]
    · intro hHA
      simp [EchoGeo.step, hl, hHA]
  · intro cfg rt s hl
    constructor
    · intro hHA hr hm
      have h1 : (decide (s.retryCount < cfg.maxRetries)) = true := by
        simp [hr]; omega
      have h2 : ¬ (cfg.maxRetries < s.retryCount + 1) := by omega
      simp [StoriesGeo.step, StoriesGeo.tryFallbackGeolocation, hl, hHA, h1, h2]
    · intro hHA
      simp [StoriesGeo.step, hl, hHA]
  · intro cfg apple rt now g evs hv hw
    have h0 : StoriesGeo.WatchdogArmedInv (StoriesGeo.initialMachineState apple now g) := by
      intro _; exact ⟨rfl, rfl⟩
    exact (watchdogArmedInv_run cfg rt evs _ hv h0 hw).1

/-- C1 witness: concrete watchdog firings.  With the non-Apple defaults
(high accuracy) the fallback request is issued in both variants; with the
Apple defaults (low accuracy) the timeout error ends the locating state;
and after a concrete valid run the armed watchdog still sees a zero retry
counter. -/
theorem C1_watchdog_fallback_witness :
    EchoGeo.step defaultCfgE 0
      { position := none, error := none, isLocating := true, lastRequestTime := some 0 }
      EchoGeo.Event.watchdog =
      ({ position := none, error := none, isLocating := true, lastRequestTime := some 0 },
       [GeoRequest.fallback fallbackOptions]) ∧
    EchoGeo.step appleCfgE 0
      { position := none, error := none, isLocating := true, lastRequestTime := some 0 }
      EchoGeo.Event.watchdog =
      ({ position := none, error := some msgWatchdogTimeout, isLocating := false,
         lastRequestTime := some 0 }, []) ∧
    (StoriesGeo.step defaultCfgS 0 (StoriesGeo.initialMachineState false 0 initialGeoState)
      StoriesGeo.Event.watchdog).2 = [GeoRequest.fallback fallbackOptions] ∧
    (StoriesGeo.run appleCfgS 0 (StoriesGeo.initialMachineState true 0 initialGeoState)
      [StoriesGeo.Event.cachedError]).1.retryCount = 0 := by
  refine ⟨?_, ?_, ?_, ?_⟩
  · exact (C1_watchdog_fallback.2.1 defaultCfgE 0 _ rfl).1 rfl
  · exact (C1_watchdog_fallback.2.1 appleCfgE 0 _ rfl).2 rfl
  · exact (C1_watchdog_fallback.2.2.1 defaultCfgS 0 _ rfl).1 rfl rfl (by decide)
  · exact C1_watchdog_fallback.2.2.2 appleCfgS true 0 0 initialGeoState
      [StoriesGeo.Event.cachedError] (by decide) (by decide)

/-- C9: on every return path of both `fetchMusicForStory` variants,
`videoUrl` is exactly `videoId` mapped through the fixed YouTube watch-URL
template (in particular one is null iff the other is), and on every
catch path — a failed or empty-choices theme response, a failed or
empty-choices query response, or a failed YouTube search — the result is
the fixed error record, whose `searchQuery`, `videoId` and `videoUrl`
are all null. -/
theorem C9_videoUrl_videoId_invariant :
    (MusicApi.errorResult.searchQuery = none ∧ MusicApi.errorResult.videoId = none ∧
      MusicApi.errorResult.videoUrl = none) ∧
    (MusicApi6.errorResult.searchQuery = none ∧ MusicApi6.errorResult.videoId = none ∧
      MusicApi6.errorResult.videoUrl = none) ∧
    (∀ (env : MusicApi.MusicEnv) (story : String),
      (MusicApi.fetchMusicForStory env story).1.videoUrl =
        Option.map (fun v => "https://www.youtube.com/watch?v=" ++ v)
          (MusicApi.fetchMusicForStory env story).1.videoId ∧
      (env.themeChoices = Except.error () →
        (MusicApi.fetchMusicForStory env story).1 = MusicApi.errorResult) ∧
      (chatContent env.themeChoices = none →
        (MusicApi.fetchMusicForStory env story).1 = MusicApi.errorResult) ∧
      (∀ c1, chatContent env.themeChoices = some c1 →
        chatContent env.queryChoices = none →
        (MusicApi.fetchMusicForStory env story).1 = MusicApi.errorResult) ∧
      (∀ c1 c2, chatContent env.themeChoices = some c1 →
        chatContent env.queryChoices = some c2 → env.ytItems = Except.error () →
        (MusicApi.fetchMusicForStory env story).1 = MusicApi.errorResult) ∧
      ((MusicApi.fetchMusicForStory env story).1.searchQuery = none →
        (MusicApi.fetchMusicForStory env story).1.videoId = none ∧
        (MusicApi.fetchMusicForStory env story).1.videoUrl = none)) ∧
    (∀ (env : MusicApi6.MusicEnv) (story : String),
      (MusicApi6.fetchMusicForStory env story).1.videoUrl =
        Option.map (fun v => "https://www.youtube.com/watch?v=" ++ v)
          (MusicApi6.fetchMusicForStory env story).1.videoId ∧
      (env.queryChoices = Except.error () →
        (MusicApi6.fetchMusicForStory env story).1 = MusicApi6.errorResult) ∧
      (chatContent env.queryChoices = none →
        (MusicApi6.fetchMusicForStory env story).1 = MusicApi6.errorResult) ∧
      (∀ c1, chatContent env.queryChoices = some c1 → env.ytItems = Except.error () →
        (MusicApi6.fetchMusicForStory env story).1 = MusicApi6.errorResult) ∧
      ((MusicApi6.fetchMusicForStory env story).1.searchQuery = none →
        (MusicApi6.fetchMusicForStory env story).1.videoId = none ∧
        (MusicApi6.fetchMusicForStory env story).1.videoUrl = none)) := by
  refine ⟨⟨rfl, rfl, rfl⟩, ⟨rfl, rfl, rfl⟩, ?_, ?_⟩
  · intro env story
    obtain ⟨tc, qc, yt⟩ := env
    cases tc with
    | error u =>
      simp [MusicApi.fetchMusicForStory, chatContent, MusicApi.errorResult]
    | ok cs =>
      cases cs with
      | nil => simp [MusicApi.fetchMusicForStory, chatContent, MusicApi.errorResult]
      | cons c cr =>
        cases qc with
        | error u => simp [MusicApi.fetchMusicForStory, chatContent, MusicApi.errorResult]
        | ok cs2 =>
          cases cs2 with
          | nil => simp [MusicApi.fetchMusicForStory, chatContent, MusicApi.errorResult]
          | cons c2 cr2 =>
            cases yt with
            | error u => simp [MusicApi.fetchMusicForStory, chatContent, MusicApi.errorResult]
            | ok items =>
              cases items with
              | nil =>
                simp [MusicApi.fetchMusicForStory, chatContent, MusicApi.ytVideoId,
                  MusicApi.jsVideoUrl]
              | cons it ir =>
                by_cases hid : it.videoId = "" <;>
                  simp [MusicApi.fetchMusicForStory, chatContent, MusicApi.ytVideoId,
                    MusicApi.jsVideoUrl, hid]
  · intro env story
    obtain ⟨qc, yt⟩ := env
    cases qc with
    | error u =>
      simp [MusicApi6.fetchMusicForStory, chatContent, MusicApi6.errorResult]
    | ok cs =>
      cases cs with
      | nil => simp [MusicApi6.fetchMusicForStory, chatContent, MusicApi6.errorResult]
      | cons c cr =>
        cases yt with
        | error u => simp [MusicApi6.fetchMusicForStory, chatContent, MusicApi6.errorResult]
        | ok items =>
          cases items with
          | nil =>
            simp [MusicApi6.fetchMusicForStory, chatContent, MusicApi.jsVideoUrl]
          | cons it ir =>
            cases hid : it.videoId with
            | none =>
              simp [MusicApi6.fetchMusicForStory, chatContent, MusicApi.jsVideoUrl,
                jsOrNullStr, hid]
            | some v =>
              by_cases hv : v = "" <;>
                simp [MusicApi6.fetchMusicForStory, chatContent, MusicApi.jsVideoUrl,
                  jsOrNullStr, hid, hv]

/-- C9 witness: the all-null error record is produced on each concrete
catch path — failed theme call, empty theme choices, failed query call,
failed YouTube search, and the corresponding paths of the unnamed
variant. -/
theorem C9_videoUrl_videoId_invariant_witness :
    (MusicApi.fetchMusicForStory
      { themeChoices := Except.error (), queryChoices := Except.error (),
        ytItems := Except.error () } "s").1 = MusicApi.errorResult ∧
    (MusicApi.fetchMusicForStory
      { themeChoices := Except.ok [], queryChoices := Except.ok ["q"],
        ytItems := Except.ok [] } "s").1 = MusicApi.errorResult ∧
    (MusicApi.fetchMusicForStory
      { themeChoices := Except.ok ["Jazz"], queryChoices := Except.error (),
        ytItems := Except.ok [] } "s").1 = MusicApi.errorResult ∧
    (MusicApi.fetchMusicForStory
      { themeChoices := Except.ok ["Jazz"], queryChoices := Except.ok ["q"],
        ytItems := Except.error () } "s").1 = MusicApi.errorResult ∧
    (MusicApi6.fetchMusicForStory
      { queryChoices := Except.error (), ytItems := Except.error () } "s").1 =
      MusicApi6.errorResult ∧
    (MusicApi6.fetchMusicForStory
      { queryChoices := Except.ok ["q"], ytItems := Except.error () } "s").1 =
      MusicApi6.errorResult ∧
    (MusicApi.fetchMusicForStory
      { themeChoices := Except.error (), queryChoices := Except.error (),
        ytItems := Except.error () } "s").1.videoId = none ∧
    (MusicApi.fetchMusicForStory
      { themeChoices := Except.error (), queryChoices := Except.error (),
        ytItems := Except.error () } "s").1.videoUrl = none :=
  ⟨((C9_videoUrl_videoId_invariant.2.2.1
      { themeChoices := Except.error (), queryChoices := Except.error (),
        ytItems := Except.error () } "s").2.1 rfl),
   ((C9_videoUrl_videoId_invariant.2.2.1
      { themeChoices := Except.ok [], queryChoices := Except.ok ["q"],
        ytItems := Except.ok [] } "s").2.2.1 rfl),
   ((C9_videoUrl_videoId_invariant.2.2.1
      { themeChoices := Except.ok ["Jazz"], queryChoices := Except.error (),
        ytItems := Except.ok [] } "s").2.2.2.1 "Jazz" rfl rfl),
   ((C9_videoUrl_videoId_invariant.2.2.1
      { themeChoices := Except.ok ["Jazz"], queryChoices := Except.ok ["q"],
        ytItems := Except.error () } "s").2.2.2.2.1 "Jazz" "q" rfl rfl rfl),
   ((C9_videoUrl_videoId_invariant.2.2.2
      { queryChoices := Except.error (), ytItems := Except.error () } "s").2.1 rfl),
   ((C9_videoUrl_videoId_invariant.2.2.2
      { queryChoices := Except.ok ["q"], ytItems := Except.error () } "s").2.2.2.1
      "q" rfl rfl),
   ((C9_videoUrl_videoId_invariant.2.2.1
      { themeChoices := Except.error (), queryChoices := Except.error (),
        ytItems := Except.error () } "s").2.2.2.2.2 rfl).1,
   ((C9_videoUrl_videoId_invariant.2.2.1
      { themeChoices := Except.error (), queryChoices := Except.error (),
        ytItems := Except.error () } "s").2.2.2.2.2 rfl).2⟩

/-- C8: `fetchLocalStory` never propagates an error: on any failed or
malformed chat response (and, in the echogo variant, a failed reverse
geocode) it returns the fixed fallback string, and in every case its
result is either the fallback string or the first chat choice content. -/
theorem C8_fetchLocalStory_never_throws :
    (∀ (env : StoriesApi.StoryEnv) (lat lng : Int) (address : Option String),
      (chatContent env.chatChoices = none →
        (StoriesApi.fetchLocalStory env lat lng address).1 = StoriesApi.fallbackStory) ∧
      ((StoriesApi.fetchLocalStory env lat lng address).1 = StoriesApi.fallbackStory ∨
        ∃ c rest, env.chatChoices = Except.ok (c :: rest) ∧
          (StoriesApi.fetchLocalStory env lat lng address).1 = c)) ∧
    (∀ (env : EchoStoriesApi.StoryEnv) (lat lng : Int) (address : Option String),
      (chatContent env.chatChoices = none →
        (EchoStoriesApi.fetchLocalStory env lat lng address).1 = StoriesApi.fallbackStory) ∧
      (env.reverseGeocode = Except.error () → jsOrString address "" = "" →
        (EchoStoriesApi.fetchLocalStory env lat lng address).1 = StoriesApi.fallbackStory) ∧
      ((EchoStoriesApi.fetchLocalStory env lat lng address).1 = StoriesApi.fallbackStory ∨
        ∃ c rest, env.chatChoices = Except.ok (c :: rest) ∧
          (EchoStoriesApi.fetchLocalStory env lat lng address).1 = c)) := by
  constructor
  · intro env lat lng address
    obtain ⟨cc⟩ := env
    cases cc with
    | error u => simp [StoriesApi.fetchLocalStory, chatContent]
    | ok cs =>
      cases cs with
      | nil => simp [StoriesApi.fetchLocalStory, chatContent]
      | cons c cr =>
        refine ⟨by simp [chatContent], Or.inr ⟨c, cr, rfl, ?_⟩⟩
        simp [StoriesApi.fetchLocalStory, chatContent]
  · intro env lat lng address
    obtain ⟨rg, cc⟩ := env
    by_cases haddr : jsOrString address "" = ""
    · cases rg with
      | error u =>
        simp [EchoStoriesApi.fetchLocalStory, haddr]
      | ok a =>
        cases cc with
        | error u => simp [EchoStoriesApi.fetchLocalStory, haddr, chatContent]
        | ok cs =>
          cases cs with
          | nil => simp [EchoStoriesApi.fetchLocalStory, haddr, chatContent]
          | cons c cr =>
            refine ⟨by simp [chatContent], by simp, Or.inr ⟨c, cr, rfl, ?_⟩⟩
            simp [EchoStoriesApi.fetchLocalStory, haddr, chatContent]
    · cases cc with
      | error u =>
        simp [EchoStoriesApi.fetchLocalStory, haddr, chatContent]
      | ok cs =>
        cases cs with
        | nil => simp [EchoStoriesApi.fetchLocalStory, haddr, chatContent]
        | cons c cr =>
          refine ⟨by simp [chatContent], by simp [haddr], Or.inr ⟨c, cr, rfl, ?_⟩⟩
          simp [EchoStoriesApi.fetchLocalStory, haddr, chatContent]

/-- C8 witness: concrete failing environments produce the fallback
string in both variants. -/
theorem C8_fetchLocalStory_never_throws_witness :
    (StoriesApi.fetchLocalStory { chatChoices := Except.error () } 0 0 none).1 =
      StoriesApi.fallbackStory ∧
    (EchoStoriesApi.fetchLocalStory
      { reverseGeocode := Except.error (), chatChoices := Except.error () } 0 0 none).1 =
      StoriesApi.fallbackStory :=
  ⟨(C8_fetchLocalStory_never_throws.1 { chatChoices := Except.error () } 0 0 none).1 rfl,
   (C8_fetchLocalStory_never_throws.2
      { reverseGeocode := Except.error (), chatChoices := Except.error () } 0 0 none).2.1
      rfl rfl⟩

/-- C6: in the app pipeline (story fetch, then music fetch for that
story), when the story generation and the subsequent music calls succeed,
the returned music theme is the trimmed content of the chat response to
the second LLM call of the pipeline, whose user prompt embeds the
generated story text. -/
theorem C6_music_theme_second_llm_call :
    ∀ (se : StoriesApi.StoryEnv) (me : MusicApi.MusicEnv) (lat lng : Int)
      (address : Option String) (c t q : String) (cs ts qs : List String)
      (items : List MusicApi.YTItem),
      se.chatChoices = Except.ok (c :: cs) →
      me.themeChoices = Except.ok (t :: ts) →
      me.queryChoices = Except.ok (q :: qs) →
      me.ytItems = Except.ok items →
      (storyMusicPipeline se me lat lng address).1 = c ∧
      (storyMusicPipeline se me lat lng address).2.1.theme = t.trim ∧
      (storyMusicPipeline se me lat lng address).2.2 =
        [ApiReq.chat "gpt-4o" StoriesApi.storySystemMsg
           (StoriesApi.storyUserMsg (jsOrString address StoriesApi.DEFAULT_ADDRESS)),
         ApiReq.chat "gpt-4" MusicApi.themeSystemMsg (MusicApi.themeUserMsg c),
         ApiReq.chat "gpt-4" MusicApi.querySystemMsg (MusicApi.queryUserMsg t.trim c),
         ApiReq.ytSearch (q.trim ++ " music") 1 false] ∧
      (∃ p, MusicApi.themeUserMsg c = p ++ c) := by
  intro se me lat lng address c t q cs ts qs items hs ht hq hy
  obtain ⟨sc⟩ := se
  obtain ⟨tc, qc, yt⟩ := me
  simp only at hs ht hq hy
  subst hs ht hq hy
  refine ⟨rfl, rfl, rfl, ⟨_, rfl⟩⟩

/-- C6 witness: the pipeline evaluated on a concrete successful
environment returns the trimmed theme of the second chat call. -/
theorem C6_music_theme_second_llm_call_witness :
    (storyMusicPipeline { chatChoices := Except.ok ["story text"] }
      { themeChoices := Except.ok [" Jazz "], queryChoices := Except.ok ["jazz 1920s"],
        ytItems := Except.ok [] } 0 0 none).2.1.theme = " Jazz ".trim ∧
    (storyMusicPipeline { chatChoices := Except.ok ["story text"] }
      { themeChoices := Except.ok [" Jazz "], queryChoices := Except.ok ["jazz 1920s"],
        ytItems := Except.ok [] } 0 0 none).1 = "story text" :=
  ⟨(C6_music_theme_second_llm_call { chatChoices := Except.ok ["story text"] }
      { themeChoices := Except.ok [" Jazz "], queryChoices := Except.ok ["jazz 1920s"],
        ytItems := Except.ok [] } 0 0 none "story text" " Jazz " "jazz 1920s" [] [] [] []
      rfl rfl rfl rfl).2.1,
   (C6_music_theme_second_llm_call { chatChoices := Except.ok ["story text"] }
      { themeChoices := Except.ok [" Jazz "], queryChoices := Except.ok ["jazz 1920s"],
        ytItems := Except.ok [] } 0 0 none "story text" " Jazz " "jazz 1920s" [] [] [] []
      rfl rfl rfl rfl).1⟩

/-- C7 (amended): when the LLM calls preceding the video search succeed,
exactly one YouTube search request is issued, as the last request, with
the LLM-generated query (suffixed with " music" and `maxResults = 1` in
the `fetchMusic.ts` variant; verbatim with `maxResults = 5` in the
unnamed variant), and the returned `videoId` is the identifier of the
first response item — except that a missing or **empty** identifier is
collapsed to null by the JavaScript `||`, and null is also returned when
the response has no items. -/
theorem C7_video_search_amended :
    (∀ (env : MusicApi.MusicEnv) (story c1 c2 : String) (l1 l2 : List String),
      env.themeChoices = Except.ok (c1 :: l1) →
      env.queryChoices = Except.ok (c2 :: l2) →
      List.countP isYtReq (MusicApi.fetchMusicForStory env story).2 = 1 ∧
      (MusicApi.fetchMusicForStory env story).2.getLast? =
        some (ApiReq.ytSearch (c2.trim ++ " music") 1 false) ∧
      (env.ytItems = Except.ok [] →
        (MusicApi.fetchMusicForStory env story).1.videoId = none) ∧
      (∀ (it : MusicApi.YTItem) (rest : List MusicApi.YTItem),
        env.ytItems = Except.ok (it :: rest) →
        (MusicApi.fetchMusicForStory env story).1.videoId =
          (if it.videoId = "" then none else some it.videoId))) ∧
    (∀ (env : MusicApi6.MusicEnv) (story c1 : String) (l1 : List String),
      env.queryChoices = Except.ok (c1 :: l1) →
      List.countP isYtReq (MusicApi6.fetchMusicForStory env story).2 = 1 ∧
      (MusicApi6.fetchMusicForStory env story).2.getLast? =
        some (ApiReq.ytSearch c1.trim 5 true) ∧
      (env.ytItems = Except.ok [] →
        (MusicApi6.fetchMusicForStory env story).1.videoId = none) ∧
      (∀ (it : MusicApi6.YTItem) (rest : List MusicApi6.YTItem),
        env.ytItems = Except.ok (it :: rest) →
        (MusicApi6.fetchMusicForStory env story).1.videoId = jsOrNullStr it.videoId)) := by
  constructor
  · intro env story c1 c2 l1 l2 ht hq
    obtain ⟨tc, qc, yt⟩ := env
    simp only at ht hq
    subst ht hq
    cases yt with
    | error u =>
      refine ⟨?_, ?_, ?_, ?_⟩ <;>
        simp [MusicApi.fetchMusicForStory, chatContent, List.countP_cons, isYtReq,
          MusicApi.errorResult]
    | ok items =>
      cases items with
      | nil =>
        refine ⟨?_, ?_, ?_, ?_⟩ <;>
          simp [MusicApi.fetchMusicForStory, chatContent, List.countP_cons, isYtReq,
            MusicApi.ytVideoId]
      | cons it ir =>
        refine ⟨?_, ?_, ?_, ?_⟩ <;>
          simp [MusicApi.fetchMusicForStory, chatContent, List.countP_cons, isYtReq,
            MusicApi.ytVideoId]
  · intro env story c1 l1 hq
    obtain ⟨qc, yt⟩ := env
    simp only at hq
    subst hq
    cases yt with
    | error u =>
      refine ⟨?_, ?_, ?_, ?_⟩ <;>
        simp [MusicApi6.fetchMusicForStory, chatContent, List.countP_cons, isYtReq,
          MusicApi6.errorResult]
    | ok items =>
      cases items with
      | nil =>
        refine ⟨?_, ?_, ?_, ?_⟩ <;>
          simp [MusicApi6.fetchMusicForStory, chatContent, List.countP_cons, isYtReq]
      | cons it ir =>
        refine ⟨?_, ?_, ?_, ?_⟩ <;>
          simp [MusicApi6.fetchMusicForStory, chatContent, List.countP_cons, isYtReq]

/-- C7 witness: a successful concrete environment with one item whose
identifier is "abc" yields exactly one search request and
`videoId = some "abc"`. -/
theorem C7_video_search_amended_witness :
    List.countP isYtReq
      (MusicApi.fetchMusicForStory
        { themeChoices := Except.ok ["Jazz"], queryChoices := Except.ok ["q"],
          ytItems := Except.ok [{ videoId := "abc" }] } "s").2 = 1 ∧
    (MusicApi.fetchMusicForStory
      { themeChoices := Except.ok ["Jazz"], queryChoices := Except.ok ["q"],
        ytItems := Except.ok [{ videoId := "abc" }] } "s").1.videoId =
      (if ("abc" : String) = "" then none else some "abc") :=
  ⟨((C7_video_search_amended.1
      { themeChoices := Except.ok ["Jazz"], queryChoices := Except.ok ["q"],
        ytItems := Except.ok [{ videoId := "abc" }] } "s" "Jazz" "q" [] [] rfl rfl)).1,
   ((C7_video_search_amended.1
      { themeChoices := Except.ok ["Jazz"], queryChoices := Except.ok ["q"],
        ytItems := Except.ok [{ videoId := "abc" }] } "s" "Jazz" "q" [] [] rfl rfl)).2.2.2
      { videoId := "abc" } [] rfl⟩

/-- C7 counterexample: the video-search response contains one item, but
its identifier is the empty string, so the code returns `videoId = null`
rather than the identifier of the first item. -/
theorem C7_video_search_counterexample :
    cex7Env.ytItems = Except.ok [{ videoId := "" }] ∧
    ([{ videoId := "" }] : List MusicApi.YTItem) ≠ [] ∧
    (MusicApi.fetchMusicForStory cex7Env "s").1.videoId = none ∧
    (MusicApi.fetchMusicForStory cex7Env "s").1.videoId ≠ some "" :=
  ⟨rfl, by decide, by decide, by decide⟩

theorem theme_sys_ne_query_sys : MusicApi.themeSystemMsg ≠ MusicApi.querySystemMsg := by
  decide

/-- C5: each invocation of the story and music fetchers issues its
requests as a fixed sequence of single round trips: the issued-request
trace is exactly the prefix of the fixed sequence up to the first failed
request (which itself appears exactly once and is never retried), the
trace never contains duplicates, and when every response succeeds every
request of the sequence is issued exactly once.  The functions take no
state, so no response can be reused across invocations. -/
theorem C5_single_round_trips :
    (∀ (env : StoriesApi.StoryEnv) (lat lng : Int) (address : Option String),
      (StoriesApi.fetchLocalStory env lat lng address).2 =
        [ApiReq.chat "gpt-4o" StoriesApi.storySystemMsg
           (StoriesApi.storyUserMsg (jsOrString address StoriesApi.DEFAULT_ADDRESS))]) ∧
    (∀ (env : EchoStoriesApi.StoryEnv) (lat lng : Int) (address : Option String),
      ((EchoStoriesApi.fetchLocalStory env lat lng address).2).Nodup ∧
      (jsOrString address "" = "" → env.reverseGeocode = Except.error () →
        (EchoStoriesApi.fetchLocalStory env lat lng address).2 =
          [ApiReq.nominatimReverse lat lng]) ∧
      (∀ a, jsOrString address "" = "" → env.reverseGeocode = Except.ok a →
        (EchoStoriesApi.fetchLocalStory env lat lng address).2 =
          [ApiReq.nominatimReverse lat lng,
           ApiReq.chat "gpt-4o" StoriesApi.storySystemMsg
             (EchoStoriesApi.storyUserMsg (EchoStoriesApi.cityOf a))]) ∧
      (jsOrString address "" ≠ "" →
        (EchoStoriesApi.fetchLocalStory env lat lng address).2 =
          [ApiReq.chat "gpt-4o" StoriesApi.storySystemMsg
             (EchoStoriesApi.storyUserMsg (jsOrString address ""))])) ∧
    (∀ (env : MusicApi.MusicEnv) (story : String),
      ((MusicApi.fetchMusicForStory env story).2).Nodup ∧
      (MusicApi.fetchMusicForStory env story).2.head? =
        some (ApiReq.chat "gpt-4" MusicApi.themeSystemMsg (MusicApi.themeUserMsg story)) ∧
      (chatContent env.themeChoices = none →
        (MusicApi.fetchMusicForStory env story).2 =
          [ApiReq.chat "gpt-4" MusicApi.themeSystemMsg (MusicApi.themeUserMsg story)]) ∧
      (∀ c1, chatContent env.themeChoices = some c1 →
        chatContent env.queryChoices = none →
        (MusicApi.fetchMusicForStory env story).2 =
          [ApiReq.chat "gpt-4" MusicApi.themeSystemMsg (MusicApi.themeUserMsg story),
           ApiReq.chat "gpt-4" MusicApi.querySystemMsg
             (MusicApi.queryUserMsg c1.trim story)]) ∧
      (∀ c1 c2, chatContent env.themeChoices = some c1 →
        chatContent env.queryChoices = some c2 →
        (MusicApi.fetchMusicForStory env story).2 =
          [ApiReq.chat "gpt-4" MusicApi.themeSystemMsg (MusicApi.themeUserMsg story),
           ApiReq.chat "gpt-4" MusicApi.querySystemMsg
             (MusicApi.queryUserMsg c1.trim story),
           ApiReq.ytSearch (c2.trim ++ " music") 1 false])) ∧
    (∀ (env : MusicApi6.MusicEnv) (story : String),
      ((MusicApi6.fetchMusicForStory env story).2).Nodup ∧
      (MusicApi6.fetchMusicForStory env story).2.head? =
        some (ApiReq.chat "gpt-4" MusicApi6.querySystemMsg (MusicApi6.queryUserMsg story)) ∧
      (chatContent env.queryChoices = none →
        (MusicApi6.fetchMusicForStory env story).2 =
          [ApiReq.chat "gpt-4" MusicApi6.querySystemMsg (MusicApi6.queryUserMsg story)]) ∧
      (∀ c1, chatContent env.queryChoices = some c1 →
        (MusicApi6.fetchMusicForStory env story).2 =
          [ApiReq.chat "gpt-4" MusicApi6.querySystemMsg (MusicApi6.queryUserMsg story),
           ApiReq.ytSearch c1.trim 5 true])) := by
  refine ⟨?_, ?_, ?_, ?_⟩
  · intro env lat lng address
    obtain ⟨cc⟩ := env
    cases cc with
    | error u => rfl
    | ok cs => cases cs with
      | nil => rfl
      | cons c cr => rfl
  · intro env lat lng address
    obtain ⟨rg, cc⟩ := env
    by_cases haddr : jsOrString address "" = ""
    · cases rg with
      | error u =>
        refine ⟨?_, ?_, ?_, ?_⟩ <;>
          simp [EchoStoriesApi.fetchLocalStory, haddr]
      | ok a0 =>
        cases cc with
        | error u =>
          refine ⟨?_, ?_, ?_, ?_⟩ <;>
            simp [EchoStoriesApi.fetchLocalStory, haddr, chatContent]
        | ok cs =>
          cases cs with
          | nil =>
            refine ⟨?_, ?_, ?_, ?_⟩ <;>
              simp [EchoStoriesApi.fetchLocalStory, haddr, chatContent]
          | cons c cr =>
            refine ⟨?_, ?_, ?_, ?_⟩ <;>
              simp [EchoStoriesApi.fetchLocalStory, haddr, chatContent]
    · cases cc with
      | error u =>
        refine ⟨?_, ?_, ?_, ?_⟩ <;>
          simp [EchoStoriesApi.fetchLocalStory, haddr, chatContent]
      | ok cs =>
        cases cs with
        | nil =>
          refine ⟨?_, ?_, ?_, ?_⟩ <;>
            simp [EchoStoriesApi.fetchLocalStory, haddr, chatContent]
        | cons c cr =>
          refine ⟨?_, ?_, ?_, ?_⟩ <;>
            simp [EchoStoriesApi.fetchLocalStory, haddr, chatContent]
  · intro env story
    obtain ⟨tc, qc, yt⟩ := env
    cases tc with
    | error u =>
      refine ⟨?_, ?_, ?_, ?_, ?_⟩ <;>
        simp [MusicApi.fetchMusicForStory, chatContent]
    | ok cs =>
      cases cs with
      | nil =>
        refine ⟨?_, ?_, ?_, ?_, ?_⟩ <;>
          simp [MusicApi.fetchMusicForStory, chatContent]
      | cons c1 cr =>
        cases qc with
        | error u =>
          refine ⟨?_, ?_, ?_, ?_, ?_⟩ <;>
            simp [MusicApi.fetchMusicForStory, chatContent, theme_sys_ne_query_sys]
        | ok cs2 =>
          cases cs2 with
          | nil =>
            refine ⟨?_, ?_, ?_, ?_, ?_⟩ <;>
              simp [MusicApi.fetchMusicForStory, chatContent, theme_sys_ne_query_sys]
          | cons c2 cr2 =>
            cases yt with
            | error u =>
              refine ⟨?_, ?_, ?_, ?_, ?_⟩ <;>
                simp [MusicApi.fetchMusicForStory, chatContent, theme_sys_ne_query_sys]
            | ok items =>
              refine ⟨?_, ?_, ?_, ?_, ?_⟩ <;>
                simp [MusicApi.fetchMusicForStory, chatContent, theme_sys_ne_query_sys]
  · intro env story
    obtain ⟨qc, yt⟩ := env
    cases qc with
    | error u =>
      refine ⟨?_, ?_, ?_, ?_⟩ <;>
        simp [MusicApi6.fetchMusicForStory, chatContent]
    | ok cs =>
      cases cs with
      | nil =>
        refine ⟨?_, ?_, ?_, ?_⟩ <;>
          simp [MusicApi6.fetchMusicForStory, chatContent]
      | cons c1 cr =>
        cases yt with
        | error u =>
          refine ⟨?_, ?_, ?_, ?_⟩ <;>
            simp [MusicApi6.fetchMusicForStory, chatContent]
        | ok items =>
          cases items with
          | nil =>
            refine ⟨?_, ?_, ?_, ?_⟩ <;>
              simp [MusicApi6.fetchMusicForStory, chatContent]
          | cons it ir =>
            refine ⟨?_, ?_, ?_, ?_⟩ <;>
              simp [MusicApi6.fetchMusicForStory, chatContent]

/-- C5 witness: concrete environments.  A fully successful music fetch
issues the three requests exactly once in order; a failed theme call
leaves a single issued request. -/
theorem C5_single_round_trips_witness :
    (MusicApi.fetchMusicForStory
      { themeChoices := Except.ok ["Jazz"], queryChoices := Except.ok ["q"],
        ytItems := Except.ok [] } "s").2 =
      [ApiReq.chat "gpt-4" MusicApi.themeSystemMsg (MusicApi.themeUserMsg "s"),
       ApiReq.chat "gpt-4" MusicApi.querySystemMsg
         (MusicApi.queryUserMsg ("Jazz" : String).trim "s"),
       ApiReq.ytSearch (("q" : String).trim ++ " music") 1 false] ∧
    (MusicApi.fetchMusicForStory
      { themeChoices := Except.error (), queryChoices := Except.ok ["q"],
        ytItems := Except.ok [] } "s").2 =
      [ApiReq.chat "gpt-4" MusicApi.themeSystemMsg (MusicApi.themeUserMsg "s")] ∧
    (EchoStoriesApi.fetchLocalStory
      { reverseGeocode := Except.ok { city := some "K", town := none, village := none },
        chatChoices := Except.ok ["x"] } 1 2 none).2 =
      [ApiReq.nominatimReverse 1 2,
       ApiReq.chat "gpt-4o" StoriesApi.storySystemMsg
         (EchoStoriesApi.storyUserMsg
           (EchoStoriesApi.cityOf { city := some "K", town := none, village := none }))] :=
  ⟨(C5_single_round_trips.2.2.1
      { themeChoices := Except.ok ["Jazz"], queryChoices := Except.ok ["q"],
        ytItems := Except.ok [] } "s").2.2.2.2 "Jazz" "q" rfl rfl,
   (C5_single_round_trips.2.2.1
      { themeChoices := Except.error (), queryChoices := Except.ok ["q"],
        ytItems := Except.ok [] } "s").2.2.1 rfl,
   (C5_single_round_trips.2.1
      { reverseGeocode := Except.ok { city := some "K", town := none, village := none },
        chatChoices := Except.ok ["x"] } 1 2 none).2.2.1
      { city := some "K", town := none, village := none } rfl rfl⟩

theorem mainErrorChoice_no_retry (e : GeoError) :
    (StoriesGeo.mainErrorChoice false e).2 = false := by
  simp only [StoriesGeo.mainErrorChoice]
  split_ifs <;> rfl

theorem stories_step_budget (cfg : StoriesGeo.Config) (rt : Int)
    (s : StoriesGeo.MachineState) (e : StoriesGeo.Event)
    (hv : StoriesGeo.valid s e = true) :
    countFallbackReqs (StoriesGeo.step cfg rt s e).2 +
      StoriesGeo.triggerBudget (StoriesGeo.step cfg rt s e).1 ≤
      StoriesGeo.triggerBudget s := by
  cases e <;>
    simp only [StoriesGeo.step, StoriesGeo.tryFallbackGeolocation, StoriesGeo.valid,
      StoriesGeo.triggerBudget, countFallbackReqs] at * <;>
    (try split_ifs) <;>
    simp_all [List.countP_cons, List.countP_nil] <;> omega

theorem stories_run_budget (cfg : StoriesGeo.Config) (rt : Int) :
    ∀ (evs : List StoriesGeo.Event) (s : StoriesGeo.MachineState),
      StoriesGeo.validRun cfg rt s evs = true →
      countFallbackReqs (StoriesGeo.run cfg rt s evs).2 ≤ StoriesGeo.triggerBudget s := by
  intro evs
  induction evs with
  | nil => intro s _; simp [StoriesGeo.run, countFallbackReqs]
  | cons e es ih =>
    intro s hv
    simp only [StoriesGeo.validRun, Bool.and_eq_true] at hv
    have h1 := stories_step_budget cfg rt s e hv.1
    have h2 := ih _ hv.2
    simp only [StoriesGeo.run, countFallbackReqs, List.countP_append]
    simp only [countFallbackReqs] at h1 h2
    omega

theorem stories_step_maxzero (cfg : StoriesGeo.Config) (rt : Int)
    (s : StoriesGeo.MachineState) (e : StoriesGeo.Event) (h : cfg.maxRetries = 0) :
    (StoriesGeo.step cfg rt s e).2 = [] := by
  have hlt : (decide (s.retryCount < cfg.maxRetries)) = false := by
    simp [h]
  cases e <;>
    simp only [StoriesGeo.step, hlt, Bool.and_false, mainErrorChoice_no_retry] <;>
    (try split_ifs) <;> simp_all

theorem stories_run_maxzero (cfg : StoriesGeo.Config) (rt : Int) :
    ∀ (evs : List StoriesGeo.Event) (s : StoriesGeo.MachineState), cfg.maxRetries = 0 →
      (StoriesGeo.run cfg rt s evs).2 = [] := by
  intro evs
  induction evs with
  | nil => intro s _; rfl
  | cons e es ih =>
    intro s h
    simp only [StoriesGeo.run]
    rw [stories_step_maxzero cfg rt s e h, ih _ h]
    rfl

/-- C2 (amended): per invocation of the retry-capped
`getCurrentLocation`, at most two fallback requests are ever issued (the
watchdog and the main error callback are the only trigger sites and each
fires at most once), so the cap is honoured for the default
`maxRetries = 2` and any larger cap, and with `maxRetries = 0` no
fallback is ever issued; whenever the retry count has reached the cap, a
watchdog firing or main-request error issues no further fallback and
instead records an error message with the locating flag cleared.
However, a fallback success resets the retry counter, so with
`maxRetries = 1` two fallbacks can be issued in one invocation (see the
counterexample). -/
theorem C2_retry_cap_amended :
    (∀ (cfg : StoriesGeo.Config) (apple : Bool) (rt now : Int) (g : GeoState)
        (evs : List StoriesGeo.Event),
      StoriesGeo.validRun cfg rt (StoriesGeo.initialMachineState apple now g) evs = true →
      countFallbackReqs
        (StoriesGeo.run cfg rt (StoriesGeo.initialMachineState apple now g) evs).2 ≤ 2) ∧
    (∀ (cfg : StoriesGeo.Config) (rt : Int) (s : StoriesGeo.MachineState)
        (evs : List StoriesGeo.Event), cfg.maxRetries = 0 →
      countFallbackReqs (StoriesGeo.run cfg rt s evs).2 = 0) ∧
    (∀ (cfg : StoriesGeo.Config) (rt : Int) (s : StoriesGeo.MachineState),
      cfg.maxRetries ≤ s.retryCount →
      ((StoriesGeo.step cfg rt s StoriesGeo.Event.watchdog).2 = [] ∧
       (s.geo.isLocating = true →
        (StoriesGeo.step cfg rt s StoriesGeo.Event.watchdog).1.geo.error =
          some msgWatchdogTimeout ∧
        (StoriesGeo.step cfg rt s StoriesGeo.Event.watchdog).1.geo.isLocating = false)) ∧
      (∀ e : GeoError,
        (StoriesGeo.step cfg rt s (StoriesGeo.Event.mainError e)).2 = [] ∧
        (StoriesGeo.step cfg rt s (StoriesGeo.Event.mainError e)).1.geo.error ≠ none ∧
        (StoriesGeo.step cfg rt s (StoriesGeo.Event.mainError e)).1.geo.isLocating = false)) := by
  refine ⟨?_, ?_, ?_⟩
  · intro cfg apple rt now g evs hv
    have h := stories_run_budget cfg rt evs _ hv
    have hb : StoriesGeo.triggerBudget (StoriesGeo.initialMachineState apple now g) = 2 := rfl
    omega
  · intro cfg rt s evs h
    rw [stories_run_maxzero cfg rt evs s h]
    rfl
  · intro cfg rt s h
    have hlt : (decide (s.retryCount < cfg.maxRetries)) = false := by
      simp; omega
    constructor
    · constructor
      · simp only [StoriesGeo.step, hlt, Bool.and_false]
        split_ifs <;> simp_all
      · intro hl
        simp [StoriesGeo.step, hlt, hl]
    · intro e
      refine ⟨?_, ?_, ?_⟩ <;>
        simp [StoriesGeo.step, hlt, mainErrorChoice_no_retry]

/-- C2 witness: the cap bound evaluated on a concrete valid run, and the
cap-reached behaviour on a concrete state whose retry counter equals the
default cap. -/
theorem C2_retry_cap_amended_witness :
    countFallbackReqs
      (StoriesGeo.run defaultCfgS 0 (StoriesGeo.initialMachineState false 0 initialGeoState)
        [StoriesGeo.Event.watchdog]).2 ≤ 2 ∧
    (StoriesGeo.step defaultCfgS 0
      { geo := { position := none, error := none, isLocating := true,
                 lastRequestTime := some 0 },
        retryCount := 2, watchdogPending := true, mainPending := true,
        cachedPending := false, fallbackPending := 0 }
      StoriesGeo.Event.watchdog).2 = [] ∧
    countFallbackReqs
      (StoriesGeo.run
        { enableHighAccuracy := true, timeout := 10000, maximumAge := 0,
          autoLocateOnMount := true, maxRetries := 0 } 0
        { geo := initialGeoState, retryCount := 0, watchdogPending := false,
          mainPending := false, cachedPending := false, fallbackPending := 0 } []).2 = 0 := by
  refine ⟨?_, ?_, ?_⟩
  · exact C2_retry_cap_amended.1 defaultCfgS false 0 0 initialGeoState
      [StoriesGeo.Event.watchdog] (by decide)
  · exact ((C2_retry_cap_amended.2.2 defaultCfgS 0
      { geo := { position := none, error := none, isLocating := true,
                 lastRequestTime := some 0 },
        retryCount := 2, watchdogPending := true, mainPending := true,
        cachedPending := false, fallbackPending := 0 } (by decide)).1).1
  · exact C2_retry_cap_amended.2.1
      { enableHighAccuracy := true, timeout := 10000, maximumAge := 0,
        autoLocateOnMount := true, maxRetries := 0 } 0
      { geo := initialGeoState, retryCount := 0, watchdogPending := false,
        mainPending := false, cachedPending := false, fallbackPending := 0 } [] (by decide)

/-- C2 counterexample: with `maxRetries = 1`, a valid event sequence —
watchdog fires and launches a fallback, the fallback succeeds (resetting
the retry counter), then the delayed main request errors with a timeout —
issues two fallback requests, exceeding `maxRetries`. -/
theorem C2_retry_cap_counterexample :
    StoriesGeo.validRun cex2Cfg 0 cex2Start cex2Events = true ∧
    countFallbackReqs (StoriesGeo.run cex2Cfg 0 cex2Start cex2Events).2 = 2 ∧
    cex2Cfg.maxRetries = 1 := by
  refine ⟨by decide, by decide, rfl⟩
